import Mathlib

/-!
Verification development for a sharded key-value store consisting of three
services:

* a coordinator (`src/coordinator/app/main.py`) that routes logical CRUD
  requests onto shard nodes through a consistent-hash ring,
* a shard node (`src/shard/app/main.py`) that holds a local in-memory store
  keyed by a composite key, and
* a monolithic single-process variant (`src/app/main.py`).

Python dictionaries are embedded as association lists with insert-replace
semantics; an `HTTPException(status_code, detail)` raised by a handler is
embedded as the `Res.err status detail` constructor, a normal return as
`Res.ok`.  The HTTP body of a propagated shard error is modelled by its
detail string.  JSON object values (`dict` payloads) are modelled by the
concrete type `Value` below; nothing in the routines under study inspects
the value beyond storing and returning it.

The module `consistent_hash` (class `ConsistentHashRing`) is imported by the
coordinator but its source is not part of the repository; it is modelled
from the specification (section 4.1) below, and every statement that leans
on its behaviour says so.
-/

/-- JSON-object payload values, e.g. `{"amt": 10}` is `[("amt", 10)]`. -/
abbrev Value := List (String × Int)

/-- Result of a handler: normal JSON response, or a raised
`HTTPException(status_code, detail)`. -/
inductive Res (α : Type) where
  | ok  : α → Res α
  | err : Nat → String → Res α
deriving DecidableEq, Repr

/-- Association-list rendering of a Python `dict` lookup (`d.get(k)` /
`k in d`). -/
def dlookup {α : Type} (k : String) : List (String × α) → Option α
  | [] => none
  | (k', v) :: rest => if k' = k then some v else dlookup k rest

/-- Association-list rendering of Python `d[k] = v`: replaces the binding in
place when the key is present, appends it otherwise. -/
def dinsert {α : Type} (k : String) (v : α) : List (String × α) → List (String × α)
  | [] => [(k, v)]
  | (k', v') :: rest => if k' = k then (k, v) :: rest else (k', v') :: dinsert k v rest

/-- Association-list rendering of Python `del d[k]`. -/
def ddelete {α : Type} (k : String) : List (String × α) → List (String × α)
  | [] => []
  | (k', v') :: rest => if k' = k then rest else (k', v') :: ddelete k rest

/-- Python truthiness of an `Optional[str]`: `None` and `""` are falsy,
every other string is truthy. -/
def strTruthy : Option String → Bool
  | none => false
  | some s => if s = "" then false else true

/-- The composite-key expression repeated verbatim in every CRUD handler of
the coordinator, the shard node and the monolith create:
`f"{key}:{sort_key}" if sort_key else key`. -/
def compositeKey (key : String) (sortKey : Option String) : String :=
  if strTruthy sortKey then key ++ ":" ++ sortKey.getD "" else key

/-! ## Consistent-hash ring, modelled from the spec

`src/coordinator/app/main.py` does `from consistent_hash import
ConsistentHashRing`; the module `consistent_hash` is not under `src/`.
The definitions in this section are therefore modelled from the spec. -/

/-- Modelled from the spec: the fixed, well-distributed non-cryptographic
64-bit hash (spec 4.1 suggests a 64-bit FNV/MurmurHash variant) applied
uniformly to virtual-node placement and key lookup.  This is 64-bit FNV-1a
over the characters of the string. -/
def fnv1a (s : String) : Nat :=
  s.data.foldl (fun h c => ((h ^^^ c.toNat) * 1099511628211) % 18446744073709551616)
    14695981039346656037

/-- Modelled from the spec: a virtual node, one ring position owned by a
shard identity (spec section 3, "VirtualNode"). -/
structure VNode where
  pos : Nat
  id  : String
deriving DecidableEq, Repr

/-- Modelled from the spec: the replication factor, the number of virtual
nodes per shard, fixed at construction (spec 4.1, "R = replication factor,
fixed at construction, e.g. 100"). -/
def replicas : Nat := 100

/-- Modelled from the spec: the ring positions claimed by a shard,
`hash(shard_identity || i)` for `i in [0, R)` (spec 4.1 `add_node`). -/
def vnodePositions (identity : String) : List Nat :=
  (List.range replicas).map (fun i => fnv1a (identity ++ toString i))

/-- Insertion into the position-ordered virtual-node list (spec section 3:
"an ordered collection of (position, shard_identity) pairs sorted by
position").  Hash-value ties are kept side by side and resolved
deterministically by insertion order, which renders the
deterministic collision-resolution clause of the spec. -/
def insertSorted (v : VNode) : List VNode → List VNode
  | [] => [v]
  | w :: ws => if v.pos ≤ w.pos then v :: w :: ws else w :: insertSorted v ws

/-- Modelled from the spec: `ConsistentHashRing`, the ordered collection of
virtual nodes (spec section 3, "HashRing"). -/
structure ConsistentHashRing where
  nodes : List VNode
deriving DecidableEq, Repr

/-- The ring of the coordinator at process start: `RING =
ConsistentHashRing()`, no virtual nodes. -/
def emptyRing : ConsistentHashRing := ⟨[]⟩

/-- Whether any virtual node of the ring is owned by the given identity. -/
def ConsistentHashRing.hasId (r : ConsistentHashRing) (n : String) : Bool :=
  r.nodes.any (fun w => decide (w.id = n))

/-- Helper for `add_node`: insert every given position as a virtual node of
the given identity. -/
def addVNodes (identity : String) (ps : List Nat) (ns : List VNode) : List VNode :=
  ps.foldl (fun acc p => insertSorted ⟨p, identity⟩ acc) ns

/-- Modelled from the spec: `add_node(shard_identity)` inserts `R` virtual
nodes at positions `hash(shard_identity || i)`; fails with
`DuplicateShardError` if the identity is already present (spec 4.1). -/
def ConsistentHashRing.add_node (r : ConsistentHashRing) (identity : String) :
    Except String ConsistentHashRing :=
  if r.hasId identity then Except.error "DuplicateShardError"
  else Except.ok ⟨addVNodes identity (vnodePositions identity) r.nodes⟩

/-- Modelled from the spec: `get_node(key)` hashes the key, takes the
smallest ring position greater than or equal to the hash, wrapping around
to the smallest position of the ring when the hash exceeds the maximum
position, and returns the owning shard identity; returns none (not a
crash) when the ring is empty (spec 4.1).  The coordinator checks the
`None` result explicitly (`if shard_name is None`). -/
def ConsistentHashRing.get_node (r : ConsistentHashRing) (key : String) : Option String :=
  match r.nodes with
  | [] => none
  | v :: vs =>
    let h := fnv1a key
    match (v :: vs).find? (fun w => decide (h ≤ w.pos)) with
    | some w => some w.id
    | none => some v.id

/-! ## Coordinator (`src/coordinator/app/main.py`) -/

/-- Request body of `POST /register_shard` (`class ShardRegistration`). -/
structure ShardRegistration where
  name : String
  url  : String
deriving DecidableEq, Repr

/-- Request body of `POST /register_table` (`class TableDef`). -/
structure TableDef where
  name : String
  partition_key_name : String
  sort_key_name : Option String
deriving DecidableEq, Repr

/-- Request body of the coordinator create/update routes (`class KeyValue`):
`value` is `Optional[dict] = None`. -/
structure KeyValue where
  table : String
  key : String
  sort_key : Option String
  value : Option Value
deriving DecidableEq, Repr

/-- The module-level state of the coordinator: `SHARDS` (name to URL), `RING`,
and `TABLES` (name to registered definition). -/
structure CoordState where
  shards : List (String × String)
  ring   : ConsistentHashRing
  tables : List (String × TableDef)
deriving DecidableEq, Repr

/-- The coordinator state at process start: all three registries empty. -/
def initState : CoordState := ⟨[], emptyRing, []⟩

namespace Coordinator

/-- `register_table`: 400 "Table already exists" when the name is taken,
otherwise stores the definition and answers with the table name. -/
def register_table (cs : CoordState) (defn : TableDef) : CoordState × Res String :=
  if (dlookup defn.name cs.tables).isSome then
    (cs, Res.err 400 "Table already exists")
  else
    ({ cs with tables := dinsert defn.name defn cs.tables }, Res.ok defn.name)

/-- `register_shard`: 400 "Shard already exists" when the name is known;
otherwise records the URL in `SHARDS` and calls `RING.add_node`.  A Python
exception escaping `add_node` would surface as an internal server error
after the `SHARDS` assignment has already happened; that branch is the
`Except.error` case below. -/
def register_shard (cs : CoordState) (data : ShardRegistration) : CoordState × Res String :=
  if (dlookup data.name cs.shards).isSome then
    (cs, Res.err 400 "Shard already exists")
  else
    let shards1 := dinsert data.name data.url cs.shards
    match cs.ring.add_node data.name with
    | Except.error _ => ({ cs with shards := shards1 }, Res.err 500 "Internal Server Error")
    | Except.ok r' =>
      ({ cs with shards := shards1, ring := r' },
       Res.ok ("Shard " ++ data.name ++ " registered"))

/-- `get_shard_for_key`: asks the ring for the shard name, answers 500
"No shards available" when the ring returned `None`, and otherwise pairs
the name with `SHARDS[shard_name]`.  A missing `SHARDS` entry would raise
`KeyError`, surfacing as an internal server error. -/
def get_shard_for_key (cs : CoordState) (key : String) : Res (String × String) :=
  match cs.ring.get_node key with
  | none => Res.err 500 "No shards available"
  | some name =>
    match dlookup name cs.shards with
    | some url => Res.ok (name, url)
    | none => Res.err 500 "Internal Server Error"

/-- Whether a status code is in the 4xx client-error class. -/
def isClientError (s : Nat) : Bool :=
  decide (400 ≤ s) && decide (s < 500)

/-- One HTTP call issued by the coordinator to a shard. -/
structure RemoteCall where
  method : String
  url    : String
deriving DecidableEq, Repr

/-- A transport-level response from a shard: status code and raw body. -/
structure HttpResp where
  status : Nat
  body   : String
deriving DecidableEq, Repr

/-- Transport-level rendering of `create_record` (`POST /create`): composes
the key, resolves the shard, performs the single `POST {url}/create`, and
returns `{"target_shard": name, "response": resp.json()}` without looking
at the status the shard returned.  The first component lists the remote calls made. -/
def create_record (cs : CoordState) (data : KeyValue) (transport : RemoteCall → HttpResp) :
    List RemoteCall × Res (String × HttpResp) :=
  let composite_key := compositeKey data.key data.sort_key
  match get_shard_for_key cs composite_key with
  | Res.err s d => ([], Res.err s d)
  | Res.ok (name, url) =>
    let call : RemoteCall := ⟨"POST", url ++ "/create"⟩
    ([call], Res.ok (name, transport call))

/-- Transport-level rendering of `read_record` (`GET /read/{table}/{key}`):
composes the key, resolves the shard, performs the single GET, and
re-raises the status and body of the shard when the status is not 200. -/
def read_record (cs : CoordState) (table key : String) (sort_key : Option String)
    (transport : RemoteCall → HttpResp) : List RemoteCall × Res (String × HttpResp) :=
  let composite_key := compositeKey key sort_key
  match get_shard_for_key cs composite_key with
  | Res.err s d => ([], Res.err s d)
  | Res.ok (name, url) =>
    let call : RemoteCall := ⟨"GET", url ++ "/read/" ++ table ++ "/" ++ key⟩
    let resp := transport call
    if resp.status ≠ 200 then ([call], Res.err resp.status resp.body)
    else ([call], Res.ok (name, resp))

/-- Transport-level rendering of `exists_record` (`GET
/exists/{table}/{key}`): like create, returns the raw shard JSON without
checking the status. -/
def exists_record (cs : CoordState) (table key : String) (sort_key : Option String)
    (transport : RemoteCall → HttpResp) : List RemoteCall × Res (String × HttpResp) :=
  let composite_key := compositeKey key sort_key
  match get_shard_for_key cs composite_key with
  | Res.err s d => ([], Res.err s d)
  | Res.ok (name, url) =>
    let call : RemoteCall := ⟨"GET", url ++ "/exists/" ++ table ++ "/" ++ key⟩
    ([call], Res.ok (name, transport call))

/-- Transport-level rendering of `update_record` (`PUT /update`): one PUT,
re-raising the status and body when the status is not 200. -/
def update_record (cs : CoordState) (data : KeyValue) (transport : RemoteCall → HttpResp) :
    List RemoteCall × Res (String × HttpResp) :=
  let composite_key := compositeKey data.key data.sort_key
  match get_shard_for_key cs composite_key with
  | Res.err s d => ([], Res.err s d)
  | Res.ok (name, url) =>
    let call : RemoteCall := ⟨"PUT", url ++ "/update"⟩
    let resp := transport call
    if resp.status ≠ 200 then ([call], Res.err resp.status resp.body)
    else ([call], Res.ok (name, resp))

/-- Transport-level rendering of `delete_record` (`DELETE
/delete/{table}/{key}`): one DELETE, re-raising the status and body when
the status is neither 200 nor 204. -/
def delete_record (cs : CoordState) (table key : String) (sort_key : Option String)
    (transport : RemoteCall → HttpResp) : List RemoteCall × Res (String × HttpResp) :=
  let composite_key := compositeKey key sort_key
  match get_shard_for_key cs composite_key with
  | Res.err s d => ([], Res.err s d)
  | Res.ok (name, url) =>
    let call : RemoteCall := ⟨"DELETE", url ++ "/delete/" ++ table ++ "/" ++ key⟩
    let resp := transport call
    if resp.status ≠ 200 ∧ resp.status ≠ 204 then ([call], Res.err resp.status resp.body)
    else ([call], Res.ok (name, resp))

/-- Fold a sequence of `POST /register_shard` requests over a coordinator
state, keeping the state and dropping the responses. -/
def applyRegs (cs : CoordState) : List ShardRegistration → CoordState
  | [] => cs
  | data :: rest => applyRegs (register_shard cs data).1 rest

end Coordinator

/-! ## Shard node (`src/shard/app/main.py`) -/

/-- The local `STORAGE` of a shard: table name to (composite key to value). -/
abbrev Storage := List (String × List (String × Value))

instance : DecidableEq Storage :=
  fun x y => inferInstanceAs (Decidable (x = y))

namespace Shard

/-- Successful body of the shard `POST /create` route:
`{"message": "Created", "table": t, "key": ck}`. -/
structure CreateOk where
  table : String
  key   : String
deriving DecidableEq, Repr

/-- `create`: ensures the table dict exists (`if data.table not in STORAGE:
STORAGE[data.table] = {}`), composes the key, assigns the value
unconditionally and answers "Created".  The route never raises. -/
def create (st : Storage) (table key : String) (sort_key : Option String) (value : Value) :
    Storage × CreateOk :=
  let tbl := (dlookup table st).getD []
  let composite_key := compositeKey key sort_key
  (dinsert table (dinsert composite_key value tbl) st, ⟨table, composite_key⟩)

/-- `read`: 404 "Table not found" when the table dict is absent, 404
"Key not found" when the composite key is absent, otherwise
`{"key": ck, "value": v}`. -/
def read (st : Storage) (table key : String) (sort_key : Option String) :
    Res (String × Value) :=
  match dlookup table st with
  | none => Res.err 404 "Table not found"
  | some tbl =>
    let composite_key := compositeKey key sort_key
    match dlookup composite_key tbl with
    | none => Res.err 404 "Key not found"
    | some v => Res.ok (composite_key, v)

/-- The `exists` route (named `existsQ` here because `exists` clashes with
tactic syntax): `{"exists": false}` when the table dict is absent,
otherwise membership of the composite key.  Never raises. -/
def existsQ (st : Storage) (table key : String) (sort_key : Option String) : Bool :=
  match dlookup table st with
  | none => false
  | some tbl => (dlookup (compositeKey key sort_key) tbl).isSome

/-- `update`: 404 "Table not found" when the table dict is absent, 404
"Key not found for update" when the composite key is absent (the store is
left untouched — update never creates), otherwise assigns the new value
and answers with the key and the new value. -/
def update (st : Storage) (table key : String) (sort_key : Option String) (value : Value) :
    Storage × Res (String × Value) :=
  match dlookup table st with
  | none => (st, Res.err 404 "Table not found")
  | some tbl =>
    let composite_key := compositeKey key sort_key
    match dlookup composite_key tbl with
    | none => (st, Res.err 404 "Key not found for update")
    | some _ =>
      (dinsert table (dinsert composite_key value tbl) st, Res.ok (composite_key, value))

/-- `delete`: 404 "Table not found" when the table dict is absent, 404
"Key not found" when the composite key is absent, otherwise deletes the
entry and answers "Deleted" with the key. -/
def delete (st : Storage) (table key : String) (sort_key : Option String) :
    Storage × Res String :=
  match dlookup table st with
  | none => (st, Res.err 404 "Table not found")
  | some tbl =>
    let composite_key := compositeKey key sort_key
    match dlookup composite_key tbl with
    | none => (st, Res.err 404 "Key not found")
    | some _ => (dinsert table (ddelete composite_key tbl) st, Res.ok composite_key)

end Shard

/-! ## Composed system: coordinator in front of the shard fleet

The per-shard stores are keyed by shard name; the coordinator reaches the
shard at `SHARDS[name]`, so the name resolved by `get_shard_for_key`
identifies the store that serves the forwarded call. -/

/-- The composed system: the coordinator state plus the local storage of each
registered shard.  A shard that has served no call yet has the empty store. -/
structure SystemState where
  coord  : CoordState
  stores : List (String × Storage)
deriving Repr

instance : DecidableEq SystemState :=
  fun a b =>
    if h1 : a.coord = b.coord then
      if h2 : a.stores = b.stores then
        Decidable.isTrue (by cases a; cases b; cases h1; cases h2; rfl)
      else Decidable.isFalse (by intro h; cases h; exact h2 rfl)
    else Decidable.isFalse (by intro h; cases h; exact h1 rfl)

/-- The store of the named shard (fresh shards start with `STORAGE = {}`). -/
def storeOf (sys : SystemState) (name : String) : Storage :=
  (dlookup name sys.stores).getD []

/-- Replace the store of the named shard. -/
def setStore (sys : SystemState) (name : String) (st : Storage) : SystemState :=
  { sys with stores := dinsert name st sys.stores }

namespace System

/-- End-to-end create: the coordinator composes the key, resolves the
shard and forwards; the pydantic model of the shard requires `value` to be a
dict, so a missing value is rejected with 422 before the handler runs; the
coordinator returns the shard response without checking its status, so the
outer result is `ok` whenever routing succeeded. -/
def create (sys : SystemState) (data : KeyValue) :
    SystemState × Res (String × Res Shard.CreateOk) :=
  let composite_key := compositeKey data.key data.sort_key
  match Coordinator.get_shard_for_key sys.coord composite_key with
  | Res.err s d => (sys, Res.err s d)
  | Res.ok (name, _url) =>
    match data.value with
    | none => (sys, Res.ok (name, Res.err 422 "Unprocessable Entity"))
    | some v =>
      let out := Shard.create (storeOf sys name) data.table data.key data.sort_key v
      (setStore sys name out.1, Res.ok (name, Res.ok out.2))

/-- End-to-end read: the coordinator resolves the shard, forwards, and
re-raises the status and detail of the shard when the status is not 200. -/
def read (sys : SystemState) (table key : String) (sort_key : Option String) :
    Res (String × (String × Value)) :=
  let composite_key := compositeKey key sort_key
  match Coordinator.get_shard_for_key sys.coord composite_key with
  | Res.err s d => Res.err s d
  | Res.ok (name, _url) =>
    match Shard.read (storeOf sys name) table key sort_key with
    | Res.err s d => Res.err s d
    | Res.ok kv => Res.ok (name, kv)

/-- End-to-end exists: the coordinator returns the raw shard JSON without
checking the status, and the shard route never raises, so the result is
`ok` whenever routing succeeded. -/
def existsQ (sys : SystemState) (table key : String) (sort_key : Option String) :
    Res (String × Bool) :=
  let composite_key := compositeKey key sort_key
  match Coordinator.get_shard_for_key sys.coord composite_key with
  | Res.err s d => Res.err s d
  | Res.ok (name, _url) =>
    Res.ok (name, Shard.existsQ (storeOf sys name) table key sort_key)

/-- End-to-end update: shard-side pydantic requires `value`; the
coordinator re-raises any non-200 status (including the 404 of a missing
record, leaving every store untouched). -/
def update (sys : SystemState) (data : KeyValue) :
    SystemState × Res (String × (String × Value)) :=
  let composite_key := compositeKey data.key data.sort_key
  match Coordinator.get_shard_for_key sys.coord composite_key with
  | Res.err s d => (sys, Res.err s d)
  | Res.ok (name, _url) =>
    match data.value with
    | none => (sys, Res.err 422 "Unprocessable Entity")
    | some v =>
      match Shard.update (storeOf sys name) data.table data.key data.sort_key v with
      | (_, Res.err s d) => (sys, Res.err s d)
      | (st', Res.ok kv) => (setStore sys name st', Res.ok (name, kv))

/-- End-to-end delete: the coordinator re-raises any status outside
{200, 204}; the shard answers 200 on success. -/
def delete (sys : SystemState) (table key : String) (sort_key : Option String) :
    SystemState × Res (String × String) :=
  let composite_key := compositeKey key sort_key
  match Coordinator.get_shard_for_key sys.coord composite_key with
  | Res.err s d => (sys, Res.err s d)
  | Res.ok (name, _url) =>
    match Shard.delete (storeOf sys name) table key sort_key with
    | (_, Res.err s d) => (sys, Res.err s d)
    | (st', Res.ok ck) => (setStore sys name st', Res.ok (name, ck))

end System

/-! ## Monolithic app (`src/app/main.py`) -/

/-- Record body of the monolith CRUD routes (`class Record`):
`key`, optional `sort_key`, required `value`. -/
structure MRecord where
  key : String
  sort_key : Option String
  value : Value
deriving DecidableEq, Repr

namespace Mono

/-- `register_table`: 400 "Table already exists" when the name is taken,
otherwise `TABLES[name] = {}`. -/
def register_table (tables : Storage) (name : String) : Storage × Res String :=
  if (dlookup name tables).isSome then
    (tables, Res.err 400 "Table already exists")
  else
    (dinsert name [] tables, Res.ok name)

/-- `create_record`: 404 when the table is unknown; composes the key by the
same rule as the services; 400 "Record already exists" when the composite
key is taken, otherwise stores the value and answers with the key. -/
def create_record (tables : Storage) (table_name : String) (record : MRecord) :
    Storage × Res String :=
  match dlookup table_name tables with
  | none => (tables, Res.err 404 "Table not found")
  | some tbl =>
    let composite_key := compositeKey record.key record.sort_key
    match dlookup composite_key tbl with
    | some _ => (tables, Res.err 400 "Record already exists")
    | none =>
      (dinsert table_name (dinsert composite_key record.value tbl) tables,
       Res.ok composite_key)

/-- `read_record`: looks the path parameter `key` up directly — no
composition with a sort key happens on the read path. -/
def read_record (tables : Storage) (table_name key : String) : Res (String × Value) :=
  match dlookup table_name tables with
  | none => Res.err 404 "Table not found"
  | some tbl =>
    match dlookup key tbl with
    | none => Res.err 404 "Record not found"
    | some v => Res.ok (key, v)

/-- `delete_record`: deletes the entry at the raw path parameter `key`. -/
def delete_record (tables : Storage) (table_name key : String) : Storage × Res String :=
  match dlookup table_name tables with
  | none => (tables, Res.err 404 "Table not found")
  | some tbl =>
    match dlookup key tbl with
    | none => (tables, Res.err 404 "Record not found")
    | some _ => (dinsert table_name (ddelete key tbl) tables, Res.ok key)

/-- `update_record`: checks and assigns at the raw path parameter `key`;
the `sort_key` field of the request body is never consulted. -/
def update_record (tables : Storage) (table_name key : String) (record : MRecord) :
    Storage × Res String :=
  match dlookup table_name tables with
  | none => (tables, Res.err 404 "Table not found")
  | some tbl =>
    match dlookup key tbl with
    | none => (tables, Res.err 404 "Record not found")
    | some _ => (dinsert table_name (dinsert key record.value tbl) tables, Res.ok key)

end Mono

/-! ## Concrete states used by witnesses and counterexamples -/

/-- A concrete registration request. -/
def regS1 : ShardRegistration := ⟨"s1", "http://s1:8000"⟩

/-- Coordinator state with the single shard `s1` registered. -/
def cs1 : CoordState := (Coordinator.register_shard initState regS1).1

/-- Composed system with the single shard `s1` registered and every store
empty. -/
def sys1 : SystemState := ⟨cs1, []⟩

/-- Monolith tables after registering table `t`. -/
def monoT : Storage := (Mono.register_table [] "t").1

/-- Monolith tables after additionally creating the record
(key `u1`, sort key `o5`, value `{"amt": 10}`) in table `t`. -/
def monoT1 : Storage :=
  (Mono.create_record monoT "t" ⟨"u1", some "o5", [("amt", 10)]⟩).1

/-- A transport whose single shard answers 200 with a fixed body. -/
def transport200 : Coordinator.RemoteCall → Coordinator.HttpResp :=
  fun _ => ⟨200, "ok-body"⟩

/-- A transport whose single shard answers 404 with a fixed body. -/
def transport404 : Coordinator.RemoteCall → Coordinator.HttpResp :=
  fun _ => ⟨404, "detail: not found"⟩

/-- Registration consistency: a shard name holds an address in `SHARDS`
exactly when the ring holds a virtual node of that identity. -/
def RegInv (cs : CoordState) : Prop :=
  ∀ n : String, (dlookup n cs.shards).isSome = cs.ring.hasId n

/-! ## Helper lemmas about the dictionary and ring embeddings -/

theorem dlookup_dinsert_self {α : Type} (k : String) (v : α) (d : List (String × α)) :
    dlookup k (dinsert k v d) = some v := by
  induction d with
  | nil => simp [dinsert, dlookup]
  | cons hd tl ih =>
    obtain ⟨a, b⟩ := hd
    by_cases ha : a = k
    · subst ha; simp [dinsert, dlookup]
    · simp [dinsert, dlookup, ha, ih]

theorem dlookup_dinsert_ne {α : Type} {k k' : String} (v : α) (d : List (String × α))
    (h : k ≠ k') : dlookup k' (dinsert k v d) = dlookup k' d := by
  induction d with
  | nil => simp [dinsert, dlookup, h]
  | cons hd tl ih =>
    obtain ⟨a, b⟩ := hd
    by_cases ha : a = k
    · subst ha; simp [dinsert, dlookup, h]
    · simp only [dinsert, dlookup, if_neg ha]
      by_cases hak : a = k'
      · simp [hak]
      · simp [hak, ih]

theorem any_insertSorted (p : VNode → Bool) (v : VNode) (l : List VNode) :
    (insertSorted v l).any p = (p v || l.any p) := by
  induction l with
  | nil => simp [insertSorted]
  | cons w ws ih =>
    by_cases h : v.pos ≤ w.pos
    · simp [insertSorted, h]
    · simp [insertSorted, h, ih, Bool.or_left_comm]

theorem any_addVNodes (identity : String) (p : VNode → Bool) (ps : List Nat)
    (ns : List VNode) :
    (addVNodes identity ps ns).any p =
      (ps.any (fun pos => p ⟨pos, identity⟩) || ns.any p) := by
  induction ps generalizing ns with
  | nil => simp [addVNodes]
  | cons q qs ih =>
    have step : addVNodes identity (q :: qs) ns =
        addVNodes identity qs (insertSorted ⟨q, identity⟩ ns) := rfl
    rw [step, ih, any_insertSorted]
    simp [Bool.or_left_comm, Bool.or_comm, Bool.or_assoc]

theorem any_const {α : Type} (c : Bool) (l : List α) (h : l ≠ []) :
    l.any (fun _ => c) = c := by
  cases l with
  | nil => exact absurd rfl h
  | cons a as => cases c <;> simp

theorem vnodePositions_ne_nil (identity : String) : vnodePositions identity ≠ [] := by
  simp [vnodePositions, replicas, List.range_succ]

theorem compositeKey_some_empty (key : String) : compositeKey key (some "") = key := by
  simp [compositeKey, strTruthy]

theorem compositeKey_none (key : String) : compositeKey key none = key := by
  simp [compositeKey, strTruthy]

/-! ## Claim theorems -/

/-- C4: while no shard has ever been registered the ring is empty (the
start state has an empty ring), and every routing call on an empty ring
returns the 500 "No shards available" error value — no crash, no default
shard — and 500 is outside the 4xx client-error class that bad requests
(such as duplicate registrations, status 400) use. -/
theorem C4_empty_ring_no_shards (cs : CoordState) (key : String)
    (h : cs.ring.nodes = []) :
    Coordinator.get_shard_for_key cs key = Res.err 500 "No shards available" ∧
    Coordinator.isClientError 500 = false ∧
    Coordinator.isClientError 400 = true ∧
    initState.ring.nodes = [] := by
  refine ⟨?_, by decide, by decide, rfl⟩
  simp [Coordinator.get_shard_for_key, ConsistentHashRing.get_node, h]

/-- C4 witness: the start state itself routes every key to the
"No shards available" error. -/
theorem C4_witness :
    Coordinator.get_shard_for_key initState "u1" = Res.err 500 "No shards available" :=
  (C4_empty_ring_no_shards initState "u1" rfl).1

/-- C5: shard resolution is a pure function of the ring membership and the
`SHARDS` address map — two states agreeing on those (whatever their table
catalogs) resolve every key to the same shard identity and address, so
repeated calls with unchanged membership return the same pair. -/
theorem C5_routing_deterministic (cs cs' : CoordState) (key : String)
    (hring : cs.ring = cs'.ring) (hshards : cs.shards = cs'.shards) :
    Coordinator.get_shard_for_key cs key = Coordinator.get_shard_for_key cs' key := by
  unfold Coordinator.get_shard_for_key
  rw [hring, hshards]

/-- C5 witness: the one-shard state resolves `u1` identically to the same
state with a different table catalog. -/
theorem C5_witness :
    Coordinator.get_shard_for_key cs1 "u1" =
      Coordinator.get_shard_for_key
        { cs1 with tables := [("t", ⟨"t", "pk", none⟩)] } "u1" :=
  C5_routing_deterministic cs1 { cs1 with tables := [("t", ⟨"t", "pk", none⟩)] } "u1" rfl rfl

/-- C6: on a shard that knows the table, a read of a composite key that is
not present answers 404 "Key not found", and an update of a composite key
that is not present answers 404 "Key not found for update" and returns the
storage unchanged — update never creates the record. -/
theorem C6_shard_record_not_found (st : Storage) (table key : String)
    (sk : Option String) (tbl : List (String × Value)) (v2 : Value)
    (ht : dlookup table st = some tbl)
    (hk : dlookup (compositeKey key sk) tbl = none) :
    Shard.read st table key sk = Res.err 404 "Key not found" ∧
    Shard.update st table key sk v2 = (st, Res.err 404 "Key not found for update") := by
  constructor
  · simp [Shard.read, ht, hk]
  · simp [Shard.update, ht, hk]

/-- C6 witness: a shard holding an empty table `t` answers 404 to a read
and to an update of the absent key `k`, leaving the storage unchanged. -/
theorem C6_witness :
    Shard.read [("t", [])] "t" "k" none = Res.err 404 "Key not found" ∧
    Shard.update [("t", [])] "t" "k" none [("a", 1)] =
      ([("t", [])], Res.err 404 "Key not found for update") :=
  C6_shard_record_not_found [("t", [])] "t" "k" none [] [("a", 1)] (by decide) (by decide)

/-- C10: an empty-string sort key is falsy in the truthiness test the
handlers share, so the composite key degenerates to the bare partition
key exactly as when the sort key is omitted; consequently routing resolves
the same shard for both spellings, a coordinator read with sort key `""`
equals the read with no sort key, and a record created with sort key `""`
is found by a read with the sort key omitted. -/
theorem C10_empty_sort_key_is_absent :
    (∀ key : String, compositeKey key (some "") = key ∧ compositeKey key none = key) ∧
    (∀ (cs : CoordState) (k : String),
      Coordinator.get_shard_for_key cs (compositeKey k (some "")) =
        Coordinator.get_shard_for_key cs (compositeKey k none)) ∧
    (∀ (sys : SystemState) (table k : String),
      System.read sys table k (some "") = System.read sys table k none) ∧
    (∀ (st : Storage) (table k : String) (v : Value),
      Shard.read (Shard.create st table k (some "") v).1 table k none = Res.ok (k, v)) := by
  refine ⟨fun key => ⟨compositeKey_some_empty key, compositeKey_none key⟩, ?_, ?_, ?_⟩
  · intro cs k
    rw [compositeKey_some_empty, compositeKey_none]
  · intro sys table k
    simp only [System.read, Shard.read, compositeKey_some_empty, compositeKey_none]
  · intro st table k v
    simp [Shard.create, Shard.read, compositeKey_some_empty, compositeKey_none,
      dlookup_dinsert_self]

/-- Helper: the store written by `setStore` is the one `storeOf` reads
back for the same shard name. -/
theorem storeOf_setStore_self (sys : SystemState) (name : String) (st : Storage) :
    storeOf (setStore sys name st) name = st := by
  simp [storeOf, setStore, dlookup_dinsert_self]

/-- C2: a create routed through the coordinator followed by a read through
the coordinator with the same table, key and sort key (membership
unchanged in between) resolves the same target shard and returns exactly
the created value. -/
theorem C2_create_read_round_trip (sys : SystemState) (data : KeyValue) (v : Value)
    (name : String) (ck : Shard.CreateOk)
    (hv : data.value = some v)
    (hc : (System.create sys data).2 = Res.ok (name, Res.ok ck)) :
    System.read (System.create sys data).1 data.table data.key data.sort_key =
      Res.ok (name, (compositeKey data.key data.sort_key, v)) := by
  cases hres : Coordinator.get_shard_for_key sys.coord (compositeKey data.key data.sort_key) with
  | err s d => simp [System.create, hres] at hc
  | ok p =>
    obtain ⟨n, url⟩ := p
    have hcreate : System.create sys data =
        (setStore sys n (Shard.create (storeOf sys n) data.table data.key data.sort_key v).1,
         Res.ok (n, Res.ok (Shard.create (storeOf sys n) data.table data.key data.sort_key v).2)) := by
      simp [System.create, hres, hv]
    rw [hcreate] at hc
    simp only [Res.ok.injEq, Prod.mk.injEq] at hc
    obtain ⟨hn, -⟩ := hc
    subst hn
    rw [hcreate]
    simp [System.read, setStore, storeOf, Shard.create, hres, Shard.read,
      dlookup_dinsert_self]

/-- C2 witness: on the one-shard system, creating `(orders, u1, o5,
amt=10)` and reading it back returns the value and the same target shard
`s1`. -/
theorem C2_witness :
    compositeKey "u1" (some "o5") = "u1:o5" ∧
    System.read (System.create sys1 ⟨"orders", "u1", some "o5", some [("amt", 10)]⟩).1
        "orders" "u1" (some "o5") =
      Res.ok ("s1", (compositeKey "u1" (some "o5"), [("amt", 10)])) :=
  ⟨by decide,
   C2_create_read_round_trip sys1 ⟨"orders", "u1", some "o5", some [("amt", 10)]⟩
     [("amt", 10)] "s1" ⟨"orders", "u1:o5"⟩ rfl (by decide)⟩

/-- C1 (amended): in the coordinator and shard services every operation
addresses the record through the one composite-key rule, identically at
write and read/exists/update/delete time — after a successful routed
create, exists, update and delete through the coordinator with the same
(table, key, sort key) hit the same target shard and the very entry the
create wrote — and the monolithic app applies the rule in its create; its
read/update/delete however use the client-supplied path key directly. -/
theorem C1_composite_rule_amended :
    (∀ (sys : SystemState) (data : KeyValue) (v : Value) (name : String)
        (ck : Shard.CreateOk),
      data.value = some v →
      (System.create sys data).2 = Res.ok (name, Res.ok ck) →
      System.existsQ (System.create sys data).1 data.table data.key data.sort_key =
        Res.ok (name, true) ∧
      (∀ v2 : Value,
        (System.update (System.create sys data).1
            ⟨data.table, data.key, data.sort_key, some v2⟩).2 =
          Res.ok (name, (compositeKey data.key data.sort_key, v2))) ∧
      (System.delete (System.create sys data).1 data.table data.key data.sort_key).2 =
        Res.ok (name, compositeKey data.key data.sort_key)) ∧
    (∀ (tables : Storage) (tn : String) (r : MRecord) (tbl : List (String × Value)),
      dlookup tn tables = some tbl →
      dlookup (compositeKey r.key r.sort_key) tbl = none →
      Mono.create_record tables tn r =
        (dinsert tn (dinsert (compositeKey r.key r.sort_key) r.value tbl) tables,
         Res.ok (compositeKey r.key r.sort_key))) := by
  constructor
  · intro sys data v name ck hv hc
    cases hres : Coordinator.get_shard_for_key sys.coord (compositeKey data.key data.sort_key) with
    | err s d => simp [System.create, hres] at hc
    | ok p =>
      obtain ⟨n, url⟩ := p
      have hcreate : System.create sys data =
          (setStore sys n (Shard.create (storeOf sys n) data.table data.key data.sort_key v).1,
           Res.ok (n, Res.ok (Shard.create (storeOf sys n) data.table data.key data.sort_key v).2)) := by
        simp [System.create, hres, hv]
      rw [hcreate] at hc
      simp only [Res.ok.injEq, Prod.mk.injEq] at hc
      obtain ⟨hn, -⟩ := hc
      subst hn
      rw [hcreate]
      refine ⟨?_, ?_, ?_⟩
      · simp [System.existsQ, setStore, storeOf, Shard.create, hres, Shard.existsQ,
          dlookup_dinsert_self]
      · intro v2
        simp [System.update, setStore, storeOf, Shard.create, hres, Shard.update,
          dlookup_dinsert_self]
      · simp [System.delete, setStore, storeOf, Shard.create, hres, Shard.delete,
          dlookup_dinsert_self]
  · intro tables tn r tbl ht hk
    simp [Mono.create_record, ht, hk]

/-- C1 counterexample: in the monolithic app the record created in table
`t` with key `u1` and sort key `o5` is stored under the composed key
`u1:o5`, yet the update route called with the same key and sort key looks
up the raw path key `u1`, answers 404 "Record not found" and leaves the
table unchanged — the composition rule is not applied on the monolith
update path, refuting the claim for that code path. -/
theorem C1_counterexample :
    compositeKey "u1" (some "o5") = "u1:o5" ∧
    dlookup "u1:o5" ((dlookup "t" monoT1).getD []) = some [("amt", 10)] ∧
    Mono.update_record monoT1 "t" "u1" ⟨"u1", some "o5", [("x", 1)]⟩ =
      (monoT1, Res.err 404 "Record not found") := by
  decide

/-- C1 witness: after the concrete routed create of `(orders, u1, o5)`,
the routed exists, update and delete with the same key and sort key hit
shard `s1` and address the created entry, and the monolith create of
`(u1, o5)` in the freshly registered table `t` stores under the composed
key. -/
theorem C1_witness :
    (System.existsQ (System.create sys1 ⟨"orders", "u1", some "o5", some [("amt", 10)]⟩).1
        "orders" "u1" (some "o5") = Res.ok ("s1", true) ∧
      (System.update (System.create sys1 ⟨"orders", "u1", some "o5", some [("amt", 10)]⟩).1
          ⟨"orders", "u1", some "o5", some [("amt", 11)]⟩).2 =
        Res.ok ("s1", (compositeKey "u1" (some "o5"), [("amt", 11)])) ∧
      (System.delete (System.create sys1 ⟨"orders", "u1", some "o5", some [("amt", 10)]⟩).1
          "orders" "u1" (some "o5")).2 =
        Res.ok ("s1", compositeKey "u1" (some "o5"))) ∧
    Mono.create_record monoT "t" ⟨"u1", some "o5", [("amt", 10)]⟩ =
      (dinsert "t" (dinsert (compositeKey "u1" (some "o5")) [("amt", 10)] []) monoT,
       Res.ok (compositeKey "u1" (some "o5"))) := by
  constructor
  · have h := C1_composite_rule_amended.1 sys1
      ⟨"orders", "u1", some "o5", some [("amt", 10)]⟩ [("amt", 10)] "s1"
      ⟨"orders", "u1:o5"⟩ rfl (by decide)
    exact ⟨h.1, h.2.1 [("amt", 11)], h.2.2⟩
  · exact C1_composite_rule_amended.2 monoT "t" ⟨"u1", some "o5", [("amt", 10)]⟩ []
      (by decide) (by decide)

/-- C3 counterexample: in the one-shard coordinator state no table is
registered in the catalog (`TABLES` is empty), yet a read on table
`orders` composes the key, resolves shard `s1` and issues one remote call
instead of failing with TableNotFound first; end to end, a create followed
by a read on the catalog-unregistered table `orders` even succeeds,
because the shard creates its local table on first write. -/
theorem C3_counterexample :
    cs1.tables = [] ∧
    Coordinator.read_record cs1 "orders" "u1" none transport200 =
      ([⟨"GET", "http://s1:8000" ++ "/read/orders/u1"⟩], Res.ok ("s1", ⟨200, "ok-body"⟩)) ∧
    System.read (System.create sys1 ⟨"orders", "u1", none, some [("amt", 1)]⟩).1
        "orders" "u1" none = Res.ok ("s1", ("u1", [("amt", 1)])) := by
  decide

/-- C3 (amended): the coordinator performs no table-catalog validation on
the CRUD paths — its read behaves identically whatever the `TABLES`
catalog holds — and the Table-not-found outcome arises only at the shard:
when routing succeeds and the local storage of the target shard lacks the
table, the shard answers 404 "Table not found" and the coordinator read
propagates that status and detail. -/
theorem C3_no_catalog_validation :
    (∀ (cs : CoordState) (tbls : List (String × TableDef)) (table key : String)
        (sk : Option String) (tr : Coordinator.RemoteCall → Coordinator.HttpResp),
      Coordinator.read_record { cs with tables := tbls } table key sk tr =
        Coordinator.read_record cs table key sk tr) ∧
    (∀ (sys : SystemState) (table key : String) (sk : Option String) (name url : String),
      Coordinator.get_shard_for_key sys.coord (compositeKey key sk) = Res.ok (name, url) →
      dlookup table (storeOf sys name) = none →
      System.read sys table key sk = Res.err 404 "Table not found") := by
  constructor
  · intro cs tbls table key sk tr
    rfl
  · intro sys table key sk name url hres ht
    simp [System.read, hres, Shard.read, ht]

/-- C3 witness: on the one-shard system with every store empty, a read of
table `t` resolves shard `s1` and propagates the 404 the shard raised:
"Table not found". -/
theorem C3_witness :
    System.read sys1 "t" "u1" none = Res.err 404 "Table not found" :=
  C3_no_catalog_validation.2 sys1 "t" "u1" none "s1" "http://s1:8000"
    (by decide) (by decide)

/-- C9: a create for a composite key that already holds a record is
rejected by the monolithic app with 400 "Record already exists", leaving
the tables unchanged, while the create of the shard node answers success and
overwrites the stored value with the new one. -/
theorem C9_duplicate_create (tables : Storage) (tn : String) (r : MRecord)
    (tbl : List (String × Value)) (w : Value)
    (st : Storage) (table key : String) (sk : Option String) (v w2 : Value)
    (tbl2 : List (String × Value))
    (hmt : dlookup tn tables = some tbl)
    (hmk : dlookup (compositeKey r.key r.sort_key) tbl = some w)
    (hst : dlookup table st = some tbl2)
    (hsk : dlookup (compositeKey key sk) tbl2 = some w2) :
    Mono.create_record tables tn r = (tables, Res.err 400 "Record already exists") ∧
    (Shard.create st table key sk v).2 = ⟨table, compositeKey key sk⟩ ∧
    dlookup (compositeKey key sk)
        ((dlookup table (Shard.create st table key sk v).1).getD []) = some v := by
  refine ⟨?_, ?_, ?_⟩
  · simp [Mono.create_record, hmt, hmk]
  · simp [Shard.create]
  · simp [Shard.create, hst, dlookup_dinsert_self]

/-- C9 witness: with key `k` already holding a value in table `t`, the
monolith create answers 400 and leaves the state alone, while the shard
create succeeds and the stored value afterwards is the new one. -/
theorem C9_witness :
    Mono.create_record [("t", [("k", [("a", 1)])])] "t" ⟨"k", none, [("b", 2)]⟩ =
      ([("t", [("k", [("a", 1)])])], Res.err 400 "Record already exists") ∧
    (Shard.create [("t", [("k", [("a", 1)])])] "t" "k" none [("b", 2)]).2 =
      ⟨"t", compositeKey "k" none⟩ ∧
    dlookup (compositeKey "k" none)
        ((dlookup "t" (Shard.create [("t", [("k", [("a", 1)])])] "t" "k" none [("b", 2)]).1).getD []) =
      some [("b", 2)] :=
  C9_duplicate_create [("t", [("k", [("a", 1)])])] "t" ⟨"k", none, [("b", 2)]⟩
    [("k", [("a", 1)])] [("a", 1)] [("t", [("k", [("a", 1)])])] "t" "k" none
    [("b", 2)] [("a", 1)] [("k", [("a", 1)])] (by decide) (by decide) (by decide) (by decide)

/-- C7: when routing resolves a shard, each coordinator operation issues
exactly one remote call, addressed to the URL of that shard — no retry, no
fail-over, no fan-out — and handles the response of the shard as the code does:
create and exists wrap whatever response came back in a 200 answer, while
read and update re-raise any non-200 status with the status and
body of the shard verbatim, and delete re-raises any status outside 200 and 204. -/
theorem C7_single_call_verbatim (cs : CoordState) (data : KeyValue)
    (tr : Coordinator.RemoteCall → Coordinator.HttpResp) (name url : String)
    (hres : Coordinator.get_shard_for_key cs (compositeKey data.key data.sort_key) =
      Res.ok (name, url)) :
    Coordinator.create_record cs data tr =
      ([⟨"POST", url ++ "/create"⟩], Res.ok (name, tr ⟨"POST", url ++ "/create"⟩)) ∧
    Coordinator.exists_record cs data.table data.key data.sort_key tr =
      ([⟨"GET", url ++ "/exists/" ++ data.table ++ "/" ++ data.key⟩],
       Res.ok (name, tr ⟨"GET", url ++ "/exists/" ++ data.table ++ "/" ++ data.key⟩)) ∧
    (Coordinator.read_record cs data.table data.key data.sort_key tr).1 =
      [⟨"GET", url ++ "/read/" ++ data.table ++ "/" ++ data.key⟩] ∧
    ((tr ⟨"GET", url ++ "/read/" ++ data.table ++ "/" ++ data.key⟩).status ≠ 200 →
      (Coordinator.read_record cs data.table data.key data.sort_key tr).2 =
        Res.err (tr ⟨"GET", url ++ "/read/" ++ data.table ++ "/" ++ data.key⟩).status
          (tr ⟨"GET", url ++ "/read/" ++ data.table ++ "/" ++ data.key⟩).body) ∧
    ((tr ⟨"GET", url ++ "/read/" ++ data.table ++ "/" ++ data.key⟩).status = 200 →
      (Coordinator.read_record cs data.table data.key data.sort_key tr).2 =
        Res.ok (name, tr ⟨"GET", url ++ "/read/" ++ data.table ++ "/" ++ data.key⟩)) ∧
    (Coordinator.update_record cs data tr).1 = [⟨"PUT", url ++ "/update"⟩] ∧
    ((tr ⟨"PUT", url ++ "/update"⟩).status ≠ 200 →
      (Coordinator.update_record cs data tr).2 =
        Res.err (tr ⟨"PUT", url ++ "/update"⟩).status (tr ⟨"PUT", url ++ "/update"⟩).body) ∧
    ((tr ⟨"PUT", url ++ "/update"⟩).status = 200 →
      (Coordinator.update_record cs data tr).2 = Res.ok (name, tr ⟨"PUT", url ++ "/update"⟩)) ∧
    (Coordinator.delete_record cs data.table data.key data.sort_key tr).1 =
      [⟨"DELETE", url ++ "/delete/" ++ data.table ++ "/" ++ data.key⟩] ∧
    ((tr ⟨"DELETE", url ++ "/delete/" ++ data.table ++ "/" ++ data.key⟩).status ≠ 200 →
      (tr ⟨"DELETE", url ++ "/delete/" ++ data.table ++ "/" ++ data.key⟩).status ≠ 204 →
      (Coordinator.delete_record cs data.table data.key data.sort_key tr).2 =
        Res.err (tr ⟨"DELETE", url ++ "/delete/" ++ data.table ++ "/" ++ data.key⟩).status
          (tr ⟨"DELETE", url ++ "/delete/" ++ data.table ++ "/" ++ data.key⟩).body) ∧
    ((tr ⟨"DELETE", url ++ "/delete/" ++ data.table ++ "/" ++ data.key⟩).status = 200 →
      (Coordinator.delete_record cs data.table data.key data.sort_key tr).2 =
        Res.ok (name, tr ⟨"DELETE", url ++ "/delete/" ++ data.table ++ "/" ++ data.key⟩)) := by
  refine ⟨?_, ?_, ?_, ?_, ?_, ?_, ?_, ?_, ?_, ?_, ?_⟩
  · simp [Coordinator.create_record, hres]
  · simp [Coordinator.exists_record, hres]
  · simp only [Coordinator.read_record, hres]
    split <;> rfl
  · intro h
    simp [Coordinator.read_record, hres, h]
  · intro h
    simp [Coordinator.read_record, hres, h]
  · simp only [Coordinator.update_record, hres]
    split <;> rfl
  · intro h
    simp [Coordinator.update_record, hres, h]
  · intro h
    simp [Coordinator.update_record, hres, h]
  · simp only [Coordinator.delete_record, hres]
    split <;> rfl
  · intro h1 h2
    simp [Coordinator.delete_record, hres, h1, h2]
  · intro h
    simp [Coordinator.delete_record, hres, h]

/-- C7 witness: on the one-shard state, a create against a shard answering
404 still wraps the response (one POST to `s1`), a read against the same
shard surfaces the 404 status and body verbatim after its single GET, and
a read against a 200-answering shard wraps the response. -/
theorem C7_witness :
    Coordinator.create_record cs1 ⟨"orders", "u1", none, some [("amt", 1)]⟩ transport404 =
      ([⟨"POST", "http://s1:8000" ++ "/create"⟩],
       Res.ok ("s1", ⟨404, "detail: not found"⟩)) ∧
    (Coordinator.read_record cs1 "orders" "u1" none transport404).2 =
      Res.err 404 "detail: not found" ∧
    (Coordinator.read_record cs1 "orders" "u1" none transport200).2 =
      Res.ok ("s1", ⟨200, "ok-body"⟩) := by
  have h404 := C7_single_call_verbatim cs1 ⟨"orders", "u1", none, some [("amt", 1)]⟩
    transport404 "s1" "http://s1:8000" (by decide)
  have h200 := C7_single_call_verbatim cs1 ⟨"orders", "u1", none, some [("amt", 1)]⟩
    transport200 "s1" "http://s1:8000" (by decide)
  exact ⟨h404.1, h404.2.2.2.1 (by decide), h200.2.2.2.2.1 (by decide)⟩

/-- Helper: adding the virtual nodes of a shard makes exactly that identity
appear, on top of whatever identities the ring already held. -/
theorem hasId_addRing (identity n : String) (ns : List VNode) :
    ConsistentHashRing.hasId ⟨addVNodes identity (vnodePositions identity) ns⟩ n =
      (decide (identity = n) || ConsistentHashRing.hasId ⟨ns⟩ n) := by
  unfold ConsistentHashRing.hasId
  rw [any_addVNodes]
  congr 1
  simp only []
  exact any_const _ _ (vnodePositions_ne_nil identity)

/-- Helper: a registration for a name already in `SHARDS` answers 400 and
changes nothing. -/
theorem register_shard_dup (cs : CoordState) (data : ShardRegistration) (u : String)
    (hd : dlookup data.name cs.shards = some u) :
    Coordinator.register_shard cs data = (cs, Res.err 400 "Shard already exists") := by
  simp [Coordinator.register_shard, hd]

/-- Helper: a registration for a fresh name (also fresh on the ring)
records the address and inserts the virtual nodes in the same step. -/
theorem register_shard_fresh (cs : CoordState) (data : ShardRegistration)
    (hd : dlookup data.name cs.shards = none)
    (hr : cs.ring.hasId data.name = false) :
    Coordinator.register_shard cs data =
      ({ shards := dinsert data.name data.url cs.shards,
         ring := ⟨addVNodes data.name (vnodePositions data.name) cs.ring.nodes⟩,
         tables := cs.tables },
       Res.ok ("Shard " ++ data.name ++ " registered")) := by
  simp [Coordinator.register_shard, hd, ConsistentHashRing.add_node, hr]

/-- Helper: the start state trivially satisfies registration
consistency. -/
theorem regInv_init : RegInv initState := by
  intro n
  rfl

/-- Helper: one `register_shard` call preserves registration
consistency. -/
theorem regInv_register (cs : CoordState) (data : ShardRegistration) (h : RegInv cs) :
    RegInv (Coordinator.register_shard cs data).1 := by
  cases hd : dlookup data.name cs.shards with
  | some u =>
    rw [register_shard_dup cs data u hd]
    exact h
  | none =>
    have hr : cs.ring.hasId data.name = false := by
      have hn := h data.name
      rw [hd] at hn
      simpa using hn.symm
    have hfresh := register_shard_fresh cs data hd hr
    have hshards : (Coordinator.register_shard cs data).1.shards =
        dinsert data.name data.url cs.shards := by rw [hfresh]
    have hring : (Coordinator.register_shard cs data).1.ring =
        (⟨addVNodes data.name (vnodePositions data.name) cs.ring.nodes⟩ :
          ConsistentHashRing) := by rw [hfresh]
    intro n
    rw [hshards, hring, hasId_addRing,
      show (⟨cs.ring.nodes⟩ : ConsistentHashRing) = cs.ring from rfl]
    by_cases hne : data.name = n
    · subst hne
      simp [dlookup_dinsert_self]
    · rw [dlookup_dinsert_ne _ _ hne]
      simp [hne, h n]

/-- Helper: any sequence of registrations preserves registration
consistency. -/
theorem regInv_applyRegs (regs : List ShardRegistration) :
    ∀ cs : CoordState, RegInv cs → RegInv (Coordinator.applyRegs cs regs) := by
  induction regs with
  | nil => intro cs h; exact h
  | cons d ds ih =>
    intro cs h
    exact ih _ (regInv_register cs d h)

/-- C8 (spec-modelled ring): in every coordinator state reachable by a
sequence of shard registrations from the start state, the set of shard
names holding an address in `SHARDS` coincides with the set of identities
present on the ring; a further registration of an already-known name
answers 400 "Shard already exists" and leaves both the address map and
the ring untouched, while a registration of a fresh name records the
address and inserts the virtual nodes of that identity in the same step. -/
theorem C8_registration_ring_consistency (regs : List ShardRegistration)
    (cs : CoordState) (hcs : cs = Coordinator.applyRegs initState regs)
    (data : ShardRegistration) :
    RegInv cs ∧
    (∀ u, dlookup data.name cs.shards = some u →
      Coordinator.register_shard cs data = (cs, Res.err 400 "Shard already exists")) ∧
    (dlookup data.name cs.shards = none →
      (Coordinator.register_shard cs data).1.shards =
        dinsert data.name data.url cs.shards ∧
      (Coordinator.register_shard cs data).2 =
        Res.ok ("Shard " ++ data.name ++ " registered") ∧
      ∀ n, (Coordinator.register_shard cs data).1.ring.hasId n =
        (decide (data.name = n) || cs.ring.hasId n)) := by
  subst hcs
  have hinv := regInv_applyRegs regs initState regInv_init
  refine ⟨hinv, ?_, ?_⟩
  · intro u hd
    exact register_shard_dup _ data u hd
  · intro hd
    have hr : (Coordinator.applyRegs initState regs).ring.hasId data.name = false := by
      have hn := hinv data.name
      rw [hd] at hn
      simpa using hn.symm
    have hfresh := register_shard_fresh _ data hd hr
    refine ⟨by rw [hfresh], by rw [hfresh], ?_⟩
    intro n
    have hring : (Coordinator.register_shard (Coordinator.applyRegs initState regs) data).1.ring =
        (⟨addVNodes data.name (vnodePositions data.name)
            (Coordinator.applyRegs initState regs).ring.nodes⟩ :
          ConsistentHashRing) := by rw [hfresh]
    rw [hring, hasId_addRing,
      show (⟨(Coordinator.applyRegs initState regs).ring.nodes⟩ : ConsistentHashRing) =
        (Coordinator.applyRegs initState regs).ring from rfl]

/-- C8 witness: after registering `s1`, registering it again answers 400
and returns the state unchanged; registering the fresh `s2` extends the
address map and puts `s2` on the ring; and the consistency between the
address map and the ring holds at `s1`. -/
theorem C8_witness :
    Coordinator.register_shard cs1 regS1 = (cs1, Res.err 400 "Shard already exists") ∧
    (Coordinator.register_shard cs1 ⟨"s2", "http://s2:8000"⟩).1.shards =
      dinsert "s2" "http://s2:8000" cs1.shards ∧
    (Coordinator.register_shard cs1 ⟨"s2", "http://s2:8000"⟩).1.ring.hasId "s2" = true ∧
    (dlookup "s1" cs1.shards).isSome = cs1.ring.hasId "s1" := by
  have h1 := C8_registration_ring_consistency [regS1] cs1 rfl regS1
  have h2 := C8_registration_ring_consistency [regS1] cs1 rfl ⟨"s2", "http://s2:8000"⟩
  refine ⟨h1.2.1 "http://s1:8000" (by decide), (h2.2.2 (by decide)).1, ?_, h1.1 "s1"⟩
  rw [(h2.2.2 (by decide)).2.2 "s2"]
  simp
